import Mathlib

/-!
# WiZ bulb controller bridge (contents/js/wizController.js)

A shallow embedding of `WizBulbController` and of `main`.

The wikari library is an external collaborator.  Every call into it is
recorded in a trace (`World`), and what the call answers is read from an
environment (`Env`): the answer may depend on the arguments and on how many
library calls were made before, so any sequence of outcomes can be scripted.
`console.error` lines are not modelled, except that the statements of
`discoverBulbs` that dump the first bulb (`JSON.stringify`, `Object.keys`,
the `map` over the handles) may throw: `Env.internalError` says so.
-/

namespace WizBulb

/-! ## Data model -/

/-- The argument of wikari `discover`: one candidate of `networkOptions`. -/
structure NetworkOptions where
  addr : String
  waitMs : Nat
  deriving DecidableEq, Repr

/-- The properties of a wikari bulb handle that the controller reads.
`none` is a property the handle does not have (`undefined`). -/
structure Handle where
  address : Option String
  ip : Option String
  macIdentifier : Option String
  mac : Option String
  bulbPort : Option Nat
  deriving DecidableEq, Repr

/-- The numbers `main` passes on: what `parseInt` yields is `NaN` or an
integer-valued number. -/
inductive JsNum where
  | nan
  | int (i : Int)
  deriving DecidableEq, Repr

/-- The pilot (bulb state record) answered by `getPilot`, kept as its JSON text. -/
abbrev Pilot := String

/-- One call into the wikari library. -/
inductive LibCall where
  | discover (options : NetworkOptions)
  | getPilot (bulb : Handle)
  | brightness (bulb : Handle) (value : JsNum)
  | color (bulb : Handle) (hex : String)
  | turn (bulb : Handle) (power : Bool)
  | scene (bulb : Handle) (id : Nat)
  | closeConnection (bulb : Handle)
  deriving DecidableEq, Repr

/-- A trace entry: the library call, and the value `isDiscovering` had on the
controller when the call was issued. -/
structure Event where
  call : LibCall
  inProgress : Bool
  deriving DecidableEq, Repr

/-- The trace of library calls made so far, oldest first. -/
abbrev World := List Event

/-- The collaborators of the controller.  The `Nat` argument of an answer is
the number of library calls made before this one. -/
structure Env where
  /-- The call `await discover(options)`, as the collaborator interface has it: the promise
  rejects with an error carrying a message, or resolves to a list of handles (empty or
  not). -/
  discover : Nat → NetworkOptions → Except String (List Handle)
  /-- The call `await bulb.getPilot()`. -/
  getPilot : Nat → Handle → Except String Pilot
  /-- The calls `brightness`, `color`, `turn`, `scene`, `closeConnection`: `some msg` when the
  call throws an error with that message. -/
  command : Nat → LibCall → Option String
  /-- Lines 61-75 of `discoverBulbs` (dump of the first bulb, extraction of the
  bulb details): `some msg` when one of them throws an error with that message. -/
  internalError : List Handle → Option String
  /-- The wikari table `SCENES`: scene name and scene id. -/
  SCENES : List (String × Nat)
  /-- The builtin `parseInt`, applied to `args[k]` (`none` when the argument is missing). -/
  parseInt : Option String → JsNum

/-- One entry of `bulbs` in the discovery result: `{ ip, mac, port }`. -/
structure BulbInfo where
  ip : String
  mac : String
  port : Nat
  deriving DecidableEq, Repr

/-- The result objects the controller returns and `main` prints. -/
inductive Result where
  /-- Object `{ success: false, message }` -/
  | failure (message : String)
  /-- Object `{ success: true, count, bulbs }` -/
  | discovered (count : Nat) (bulbs : List BulbInfo)
  /-- Object `{ success: true, state: pilot }` -/
  | state (pilot : Pilot)
  /-- Object `{ success: true, brightness }` -/
  | brightness (value : JsNum)
  /-- Object `{ success: true, color: { red, green, blue, hex } }` -/
  | color (red green blue : JsNum) (hex : String)
  /-- Object `{ success: true, power }` -/
  | power (power : Bool)
  /-- Object `{ success: true }` -/
  | done
  /-- Object `{ success: true, scenes }` -/
  | scenes (names : List String)
  /-- Object `{ success: true, scene }` -/
  | scene (sceneName : Option String)
  /-- Object `{ success: true, discovery, state }` -/
  | discoveryAndState (discovery : Result) (state : Result)
  deriving DecidableEq, Repr

/-- The field `success` of a result object. -/
def Result.success : Result → Bool
  | .failure _ => false
  | _ => true

/-- The fields of `WizBulbController`. -/
structure WizBulbController where
  bulbs : List Handle
  currentBulb : Option Handle
  isDiscovering : Bool
  deriving DecidableEq, Repr

/-- The constructor: `bulbs = []`, `currentBulb = null`, `isDiscovering = false`. -/
def WizBulbController.new : WizBulbController :=
  { bulbs := [], currentBulb := none, isDiscovering := false }

/-! ## discoverBulbs -/

/-- The constant `networkOptions` of `discoverBulbs`. -/
def networkOptions : List NetworkOptions :=
  [ { addr := "192.168.0.255", waitMs := 8000 },
    { addr := "192.168.1.255", waitMs := 5000 },
    { addr := "255.255.255.255", waitMs := 5000 } ]

/-- The call `await discover(options)` on controller `this`: the call is appended to the
trace and answered by the environment. -/
def callDiscover (env : Env) (this : WizBulbController) (options : NetworkOptions)
    (w : World) : Except String (List Handle) × World :=
  (env.discover w.length options, w ++ [⟨.discover options, this.isDiscovering⟩])

/-- The loop `for (const options of networkOptions)` of `discoverBulbs`, over the
candidates still to visit, with the current value of `discoveredBulbs`. -/
def discoverLoop (env : Env) (this : WizBulbController) :
    List NetworkOptions → List Handle → World → List Handle × World
  | [], discoveredBulbs, w => (discoveredBulbs, w)
  | options :: rest, discoveredBulbs, w =>
    -- if (discoveredBulbs.length > 0) break;
    if discoveredBulbs.length > 0 then (discoveredBulbs, w)
    else
      match callDiscover env this options w with
      | (.ok found, w1) =>
        -- discoveredBulbs = await discover(options); if (discoveredBulbs.length > 0) break;
        if found.length > 0 then (found, w1)
        else discoverLoop env this rest found w1
      | (.error _, w1) =>
        -- catch (e): the message is logged, discoveredBulbs keeps its value
        discoverLoop env this rest discoveredBulbs w1

/-- The JavaScript `a || b` on optional strings: `a` when it is truthy (present and not
the empty string), else `b`. -/
def orStr (a b : Option String) : Option String :=
  match a with
  | some s => if s = "" then b else some s
  | none => b

/-- The callback of `this.bulbs.map` in `discoverBulbs`:
`ip = b.address || b.ip || 'unknown'`, `mac = b.macIdentifier || b.mac || 'unknown'`,
`port = b.bulbPort || 38899`. -/
def bulbInfo (b : Handle) : BulbInfo :=
  { ip := (orStr (orStr b.address b.ip) (some "unknown")).getD "unknown"
    mac := (orStr (orStr b.macIdentifier b.mac) (some "unknown")).getD "unknown"
    port := match b.bulbPort with
      | some p => if p = 0 then 38899 else p
      | none => 38899 }

/-- What a method call leaves behind: the returned result, the controller and the trace. -/
structure Run where
  result : Result
  this : WizBulbController
  world : World
  deriving DecidableEq, Repr

/-- The method `discoverBulbs`, with the candidate list as a parameter (the source
fixes it to `networkOptions`). -/
def discoverBulbsOver (env : Env) (candidates : List NetworkOptions)
    (this : WizBulbController) (w : World) : Run :=
  if this.isDiscovering then
    ⟨.failure "Discovery already in progress", this, w⟩
  else
    -- this.isDiscovering = true; try { ... }
    let this1 := { this with isDiscovering := true }
    let (discoveredBulbs, w1) := discoverLoop env this1 candidates [] w
    -- this.bulbs = discoveredBulbs;
    let this2 := { this1 with bulbs := discoveredBulbs }
    match this2.bulbs with
    | first :: _ =>
      -- this.currentBulb = this.bulbs[0];
      let this3 := { this2 with currentBulb := some first }
      match env.internalError this3.bulbs with
      | some message =>
        -- catch (error) { return { success: false, message: error.message } } finally
        ⟨.failure message, { this3 with isDiscovering := false }, w1⟩
      | none =>
        ⟨.discovered this3.bulbs.length (this3.bulbs.map bulbInfo),
          { this3 with isDiscovering := false }, w1⟩
    | [] =>
      ⟨.failure "No bulbs found", { this2 with isDiscovering := false }, w1⟩

/-- The method `discoverBulbs`. -/
def discoverBulbs (env : Env) (this : WizBulbController) (w : World) : Run :=
  discoverBulbsOver env networkOptions this w

/-! ## The bulb commands -/

/-- A call of `brightness`, `color`, `turn`, `scene` or `closeConnection` on the current
bulb: the call is appended to the trace; `some msg` when it throws. -/
def callCommand (env : Env) (this : WizBulbController) (call : LibCall)
    (w : World) : Option String × World :=
  (env.command w.length call, w ++ [⟨call, this.isDiscovering⟩])

/-- The method `getBulbState`. -/
def getBulbState (env : Env) (this : WizBulbController) (w : World) : Run :=
  match this.currentBulb with
  | none => ⟨.failure "No bulb connected", this, w⟩
  | some bulb =>
    let w1 := w ++ [⟨.getPilot bulb, this.isDiscovering⟩]
    match env.getPilot w.length bulb with
    | .ok pilot => ⟨.state pilot, this, w1⟩
    | .error message => ⟨.failure message, this, w1⟩

/-- The method `setBrightness`. -/
def setBrightness (env : Env) (brightness : JsNum) (this : WizBulbController)
    (w : World) : Run :=
  match this.currentBulb with
  | none => ⟨.failure "No bulb connected", this, w⟩
  | some bulb =>
    match callCommand env this (.brightness bulb brightness) w with
    | (none, w1) => ⟨.brightness brightness, this, w1⟩
    | (some message, w1) => ⟨.failure message, this, w1⟩

/-- The lowercase base 16 digits of a natural number, most significant first. -/
def hexDigits (n : Nat) : String := String.mk (Nat.toDigits 16 n)

/-- The call `x.toString(16)` on a number. -/
def toString16 : JsNum → String
  | .nan => "NaN"
  | .int i => if i < 0 then "-" ++ hexDigits i.natAbs else hexDigits i.toNat

/-- The call `s.padStart(targetLength, c)` with a one-character pad string. -/
def padStart (s : String) (targetLength : Nat) (c : Char) : String :=
  String.mk (List.replicate (targetLength - s.length) c) ++ s

/-- The template string of `setRGBColor`: `#`, then each component through
`toString(16).padStart(2, '0')`. -/
def rgbHex (red green blue : JsNum) : String :=
  "#" ++ padStart (toString16 red) 2 '0' ++ padStart (toString16 green) 2 '0'
    ++ padStart (toString16 blue) 2 '0'

/-- The method `setRGBColor`. -/
def setRGBColor (env : Env) (red green blue : JsNum) (this : WizBulbController)
    (w : World) : Run :=
  match this.currentBulb with
  | none => ⟨.failure "No bulb connected", this, w⟩
  | some bulb =>
    let hex := rgbHex red green blue
    match callCommand env this (.color bulb hex) w with
    | (none, w1) => ⟨.color red green blue hex, this, w1⟩
    | (some message, w1) => ⟨.failure message, this, w1⟩

/-- The method `setBulbPower`. -/
def setBulbPower (env : Env) (power : Bool) (this : WizBulbController)
    (w : World) : Run :=
  match this.currentBulb with
  | none => ⟨.failure "No bulb connected", this, w⟩
  | some bulb =>
    match callCommand env this (.turn bulb power) w with
    | (none, w1) => ⟨.power power, this, w1⟩
    | (some message, w1) => ⟨.failure message, this, w1⟩

/-- The method `closeBulbConnection`. -/
def closeBulbConnection (env : Env) (this : WizBulbController) (w : World) : Run :=
  match this.currentBulb with
  | some bulb =>
    match callCommand env this (.closeConnection bulb) w with
    | (none, w1) => ⟨.done, this, w1⟩
    | (some message, w1) => ⟨.failure message, this, w1⟩
  | none => ⟨.done, this, w⟩

/-- The method `getAvailableScenes`: the keys of `SCENES`. -/
def getAvailableScenes (env : Env) (this : WizBulbController) (w : World) : Run :=
  ⟨.scenes (env.SCENES.map Prod.fst), this, w⟩

/-- The lookup `SCENES[sceneName]`; a missing argument reads the key `undefined`. -/
def lookupScene (env : Env) (sceneName : Option String) : Option Nat :=
  env.SCENES.lookup (sceneName.getD "undefined")

/-- The method `setScene`. -/
def setScene (env : Env) (sceneName : Option String) (this : WizBulbController)
    (w : World) : Run :=
  match this.currentBulb with
  | none => ⟨.failure "No bulb connected", this, w⟩
  | some bulb =>
    match lookupScene env sceneName with
    | none => ⟨.failure "Scene not found", this, w⟩
    | some id =>
      -- if (!SCENES[sceneName]): the id 0 is falsy too
      if id = 0 then ⟨.failure "Scene not found", this, w⟩
      else
        match callCommand env this (.scene bulb id) w with
        | (none, w1) => ⟨.scene sceneName, this, w1⟩
        | (some message, w1) => ⟨.failure message, this, w1⟩

/-! ## main -/

/-- What a run of `main` leaves behind. -/
inductive MainRun where
  /-- No command: `process.exit(1)` before a controller exists. -/
  | exited (code : Nat)
  /-- The result printed by `console.log(JSON.stringify(result))`, then the controller
  and the trace after the closing `closeBulbConnection()`. -/
  | printed (result : Result) (controller : WizBulbController) (world : World)
  deriving DecidableEq, Repr

/-- The `switch (command)` of `main`, on the fresh controller. -/
def dispatch (env : Env) (command : String) (args : List String)
    (controller : WizBulbController) (w : World) : Run :=
  if command = "discover" then discoverBulbs env controller w
  else if command = "getState" then getBulbState env controller w
  else if command = "setBrightness" then
    setBrightness env (env.parseInt args[1]?) controller w
  else if command = "setRGB" then
    setRGBColor env (env.parseInt args[1]?) (env.parseInt args[2]?) (env.parseInt args[3]?)
      controller w
  else if command = "setPower" then
    setBulbPower env (decide (args[1]? = some "true")) controller w
  else if command = "getScenes" then getAvailableScenes env controller w
  else if command = "setScene" then setScene env args[1]? controller w
  else if command = "close" then closeBulbConnection env controller w
  else if command = "discoverAndGetState" then
    let discoverRun := discoverBulbs env controller w
    if discoverRun.result.success && discoverRun.this.currentBulb.isSome then
      let stateRun := getBulbState env discoverRun.this discoverRun.world
      ⟨.discoveryAndState discoverRun.result stateRun.result, stateRun.this, stateRun.world⟩
    else discoverRun
  else ⟨.failure "Unknown command", controller, w⟩

/-- The function `main` on `args = process.argv.slice(2)`, in a fresh process (empty
trace).  The result objects are plain data, so `JSON.stringify(result)` does not throw. -/
def main (env : Env) (args : List String) : MainRun :=
  match args with
  | [] => .exited 1
  | command :: _ =>
    let controller := WizBulbController.new
    let run := dispatch env command args controller []
    -- Always try to close connection before exit
    let closing := closeBulbConnection env run.this run.world
    .printed run.result closing.this closing.world

/-! ## Vocabulary of the statements -/

/-- The answer of a `discover` call is a non-empty list of handles. -/
def found : Except String (List Handle) → Bool
  | .ok (_ :: _) => true
  | _ => false

/-- The trace entry of a `discover` call issued while the in-progress flag is set. -/
def attempt (options : NetworkOptions) : Event := ⟨.discover options, true⟩

/-- The number of `discover` calls a run over `candidates` is expected to make when the
trace holds `n` calls at its start: up to and including the first answer with a handle. -/
def attempts (env : Env) : Nat → List NetworkOptions → Nat
  | _, [] => 0
  | n, c :: cs => if found (env.discover n c) then 1 else 1 + attempts env (n + 1) cs

/-- The first non-empty list of handles answered along `candidates`, `[]` when there is
none. -/
def firstFound (env : Env) : Nat → List NetworkOptions → List Handle
  | _, [] => []
  | n, c :: cs =>
    match env.discover n c with
    | .ok (b :: bs) => b :: bs
    | _ => firstFound env (n + 1) cs

/-- The result `discoverBulbs` returns once the loop has left `found` in
`discoveredBulbs`. -/
def resultFor (env : Env) (found : List Handle) : Result :=
  match found with
  | [] => .failure "No bulbs found"
  | _ :: _ =>
    match env.internalError found with
    | some message => .failure message
    | none => .discovered found.length (found.map bulbInfo)

/-- The environment `env` in which the errored answers of the `discover` calls selected
by `replace` (by call number) are replaced by the empty list. -/
def absorbErrors (env : Env) (replace : Nat → Bool) : Env :=
  { env with
    discover := fun n options =>
      match env.discover n options with
      | .error message => if replace n then .ok [] else .error message
      | .ok bulbs => .ok bulbs }

/-- The hexadecimal value of a lowercase digit `0`-`9`, `a`-`f`. -/
def hexValue (c : Char) : Option Nat :=
  if '0' ≤ c ∧ c ≤ '9' then some (c.toNat - '0'.toNat)
  else if 'a' ≤ c ∧ c ≤ 'f' then some (c.toNat - 'a'.toNat + 10)
  else none

/-- Two lowercase hexadecimal digits read as a base 16 number. -/
def parseHexPair (hi lo : Char) : Option Nat :=
  match hexValue hi, hexValue lo with
  | some h, some l => some (16 * h + l)
  | _, _ => none

/-- The handle lacks a string property: the property is absent or is the empty string,
the two cases in which `||` falls through to the next alternative. -/
def lacks : Option String → Bool
  | none => true
  | some s => decide (s = "")

/-! ## Sample inputs -/

/-- A discovered bulb as wikari builds it. -/
def deviceX : Handle :=
  { address := some "192.168.0.7", ip := none, macIdentifier := some "a8bb50aabbcc",
    mac := none, bulbPort := some 38899 }

/-- A second bulb, without the properties the controller reads. -/
def deviceY : Handle :=
  { address := none, ip := none, macIdentifier := none, mac := none, bulbPort := none }

/-- An environment whose k-th `discover` call answers the k-th entry of `answers` (the
empty list past the end), and in which nothing else fails. -/
def scripted (answers : List (Except String (List Handle))) : Env :=
  { discover := fun n _ => answers.getD n (.ok [])
    getPilot := fun _ _ => .ok "pilot"
    command := fun _ _ => none
    internalError := fun _ => none
    SCENES := [("Ocean", 1), ("Romance", 2)]
    parseInt := fun _ => .nan }

/-- The scenario of the specification: the first candidate answers no bulb, the second
fails, the third answers `deviceX`. -/
def envEmptyErrorFound : Env :=
  scripted [.ok [], .error "EACCES", .ok [deviceX]]

/-- The second candidate answers `deviceX`; the third would answer `deviceY`. -/
def envSecondThenThird : Env :=
  scripted [.ok [], .ok [deviceX], .ok [deviceY]]

/-- No candidate finds a bulb: the first and the third answer the empty list, the second
fails. -/
def envFruitless : Env :=
  scripted [.ok [], .error "EACCES", .ok []]

/-- The first candidate answers `deviceX`, and dumping it throws. -/
def envInternalError : Env :=
  { scripted [.ok [deviceX]] with
    internalError := fun _ => some "Converting circular structure to JSON" }

/-- A controller on which a discovery is in progress. -/
def busyController : WizBulbController :=
  { bulbs := [deviceY], currentBulb := some deviceY, isDiscovering := true }

/-- A controller connected to `deviceX`. -/
def connectedController : WizBulbController :=
  { bulbs := [deviceX], currentBulb := some deviceX, isDiscovering := false }

/-! ## The discovery loop -/

theorem discoverLoop_eq (env : Env) (this : WizBulbController) :
    ∀ (cands : List NetworkOptions) (w : World),
      discoverLoop env this cands [] w =
        (firstFound env w.length cands,
          w ++ (cands.take (attempts env w.length cands)).map
            (fun c => ⟨.discover c, this.isDiscovering⟩)) := by
  intro cands
  induction cands with
  | nil => intro w; simp [discoverLoop, firstFound, attempts]
  | cons c cs ih =>
    intro w
    have hlen : (w ++ [(⟨.discover c, this.isDiscovering⟩ : Event)]).length = w.length + 1 := by
      simp
    cases hd : env.discover w.length c with
    | error msg =>
      simp only [discoverLoop, callDiscover, hd, firstFound, attempts, found]
      rw [ih, hlen]
      simp [Nat.add_comm 1]
    | ok l =>
      cases l with
      | nil =>
        simp only [discoverLoop, callDiscover, hd, firstFound, attempts, found]
        rw [ih, hlen]
        simp [Nat.add_comm 1]
      | cons b bs =>
        simp [discoverLoop, callDiscover, hd, firstFound, attempts, found]

theorem attempts_le (env : Env) :
    ∀ (cands : List NetworkOptions) (n : Nat), attempts env n cands ≤ cands.length := by
  intro cands
  induction cands with
  | nil => intro n; simp [attempts]
  | cons c cs ih =>
    intro n
    simp only [attempts, List.length_cons]
    split
    · omega
    · have := ih (n + 1); omega

theorem attempts_pos (env : Env) (c : NetworkOptions) (cs : List NetworkOptions) (n : Nat) :
    0 < attempts env n (c :: cs) := by
  simp only [attempts]; split <;> omega

theorem attempts_le_of_found (env : Env) :
    ∀ (cands : List NetworkOptions) (n i : Nat) (c : NetworkOptions),
      cands[i]? = some c → found (env.discover (n + i) c) = true →
      attempts env n cands ≤ i + 1 := by
  intro cands
  induction cands with
  | nil => intro n i c h; simp at h
  | cons d ds ih =>
    intro n i c h hf
    cases i with
    | zero =>
      simp at h
      subst h
      simp at hf
      simp [attempts, hf]
    | succ j =>
      simp at h
      simp only [attempts]
      split
      · omega
      · have := ih (n + 1) j c h (by rw [show n + 1 + j = n + (j + 1) by omega]; exact hf)
        omega

theorem found_of_attempts_lt (env : Env) :
    ∀ (cands : List NetworkOptions) (n : Nat),
      attempts env n cands < cands.length →
      ∃ c, cands[attempts env n cands - 1]? = some c ∧
        found (env.discover (n + (attempts env n cands - 1)) c) = true := by
  intro cands
  induction cands with
  | nil => intro n h; simp at h
  | cons d ds ih =>
    intro n h
    by_cases hf : found (env.discover n d) = true
    · refine ⟨d, ?_, ?_⟩ <;> simp [attempts, hf]
    · have hA : attempts env n (d :: ds) = 1 + attempts env (n + 1) ds := by
        simp [attempts, hf]
      rw [hA] at h ⊢
      simp only [List.length_cons] at h
      obtain ⟨c, hc, hfc⟩ := ih (n + 1) (by omega)
      have hpos : 0 < attempts env (n + 1) ds := by
        cases ds with
        | nil => simp at hc
        | cons e es => exact attempts_pos env e es (n + 1)
      refine ⟨c, ?_, ?_⟩
      · have : 1 + attempts env (n + 1) ds - 1 = (attempts env (n + 1) ds - 1) + 1 := by omega
        rw [this, List.getElem?_cons_succ]
        exact hc
      · have : n + (1 + attempts env (n + 1) ds - 1) = n + 1 + (attempts env (n + 1) ds - 1) := by
          omega
        rw [this]
        exact hfc

theorem attempts_eq_length_of_fruitless (env : Env) :
    ∀ (cands : List NetworkOptions) (n : Nat),
      (∀ i c, cands[i]? = some c → found (env.discover (n + i) c) = false) →
      attempts env n cands = cands.length ∧ firstFound env n cands = [] := by
  intro cands
  induction cands with
  | nil => intro n _; simp [attempts, firstFound]
  | cons d ds ih =>
    intro n h
    have h0 : found (env.discover n d) = false := by simpa using h 0 d (by simp)
    have hrest := ih (n + 1) (fun i c hc => by
      have := h (i + 1) c (by simpa using hc)
      rwa [show n + (i + 1) = n + 1 + i by omega] at this)
    constructor
    · simp [attempts, h0, hrest.1, Nat.add_comm 1]
    · cases hd : env.discover n d with
      | error msg => simp [firstFound, hd, hrest.2]
      | ok l =>
        cases l with
        | nil => simp [firstFound, hd, hrest.2]
        | cons b bs => simp [hd, found] at h0

theorem firstFound_spec (env : Env) :
    ∀ (cands : List NetworkOptions) (n : Nat),
      (∃ i c, cands[i]? = some c ∧ found (env.discover (n + i) c) = true) →
      ∃ i c, cands[i]? = some c ∧ env.discover (n + i) c = .ok (firstFound env n cands) ∧
        firstFound env n cands ≠ [] ∧
        ∀ j d, j < i → cands[j]? = some d → found (env.discover (n + j) d) = false := by
  intro cands
  induction cands with
  | nil => intro n h; obtain ⟨i, c, hc, _⟩ := h; simp at hc
  | cons d ds ih =>
    intro n h
    by_cases hf : found (env.discover n d) = true
    · refine ⟨0, d, by simp, ?_, ?_, ?_⟩
      · cases hd : env.discover n d with
        | error msg => simp [hd, found] at hf
        | ok l =>
          cases l with
          | nil => simp [hd, found] at hf
          | cons b bs => simp [firstFound, hd]
      · cases hd : env.discover n d with
        | error msg => simp [hd, found] at hf
        | ok l =>
          cases l with
          | nil => simp [hd, found] at hf
          | cons b bs => simp [firstFound, hd]
      · intro j e hj; omega
    · have hff : firstFound env n (d :: ds) = firstFound env (n + 1) ds := by
        cases hd : env.discover n d with
        | error msg => simp [firstFound, hd]
        | ok l =>
          cases l with
          | nil => simp [firstFound, hd]
          | cons b bs => simp [hd, found] at hf
      obtain ⟨i, c, hc, hfc⟩ := h
      have hrest : ∃ i c, ds[i]? = some c ∧ found (env.discover (n + 1 + i) c) = true := by
        cases i with
        | zero =>
          simp at hc
          subst hc
          simp at hfc
          exact absurd hfc hf
        | succ k =>
          refine ⟨k, c, by simpa using hc, ?_⟩
          rwa [show n + 1 + k = n + (k + 1) by omega]
      obtain ⟨i0, c0, hc0, hd0, hne, hbefore⟩ := ih (n + 1) hrest
      refine ⟨i0 + 1, c0, by simpa using hc0, ?_, ?_, ?_⟩
      · rw [hff, show n + (i0 + 1) = n + 1 + i0 by omega]; exact hd0
      · rw [hff]; exact hne
      · intro j e hj he
        cases j with
        | zero =>
          simp at he
          subst he
          simpa using hf
        | succ k =>
          have := hbefore k e (by omega) (by simpa using he)
          rwa [show n + 1 + k = n + (k + 1) by omega] at this

theorem discoverBulbsOver_eq (env : Env) (cands : List NetworkOptions)
    (this : WizBulbController) (w : World) (h : this.isDiscovering = false) :
    discoverBulbsOver env cands this w =
      ⟨resultFor env (firstFound env w.length cands),
        ⟨firstFound env w.length cands,
          (match firstFound env w.length cands with
            | first :: _ => some first
            | [] => this.currentBulb),
          false⟩,
        w ++ (cands.take (attempts env w.length cands)).map attempt⟩ := by
  have hA : (fun c => (⟨.discover c, true⟩ : Event)) = attempt := rfl
  unfold discoverBulbsOver
  simp only [h, Bool.false_eq_true, ↓reduceIte, discoverLoop_eq]
  cases hL : firstFound env w.length cands with
  | nil => simp [resultFor, hA]
  | cons b bs =>
    simp only [resultFor]
    cases hI : env.internalError (b :: bs) <;> simp [hA]

/-! ## Claims about discoverBulbs -/

/-- C1: started with `isDiscovering = false`, `discoverBulbs` calls `discover` on the
candidates in list order, at most once each: the calls it adds to the trace are the
first `k` candidates.  It stops after the first candidate whose call answers a non-empty
list (`k ≤ i + 1` for every such position `i`), it stops early only there, and when the
first candidate answers a non-empty list there is exactly one call. -/
theorem discoverBulbs_tries_candidates_in_order (env : Env) (cands : List NetworkOptions)
    (this : WizBulbController) (w : World) (h : this.isDiscovering = false) :
    ∃ k, k ≤ cands.length ∧
      (discoverBulbsOver env cands this w).world = w ++ (cands.take k).map attempt ∧
      (∀ i c, cands[i]? = some c → found (env.discover (w.length + i) c) = true →
        k ≤ i + 1) ∧
      (cands ≠ [] → 0 < k) ∧
      (k < cands.length → ∃ c, cands[k - 1]? = some c ∧
        found (env.discover (w.length + (k - 1)) c) = true) ∧
      (∀ c, cands[0]? = some c → found (env.discover w.length c) = true → k = 1) := by
  refine ⟨attempts env w.length cands, attempts_le env cands _, ?_, ?_, ?_, ?_, ?_⟩
  · rw [discoverBulbsOver_eq env cands this w h]
  · exact attempts_le_of_found env cands w.length
  · intro hne
    cases cands with
    | nil => exact absurd rfl hne
    | cons c cs => exact attempts_pos env c cs _
  · exact found_of_attempts_lt env cands w.length
  · intro c hc hf
    cases cands with
    | nil => simp at hc
    | cons d ds =>
      simp at hc
      subst hc
      simp [attempts, hf]

/-- C1, witness: the first of the three candidates answers one bulb. -/
theorem discoverBulbs_tries_candidates_in_order_witness :
    WizBulbController.new.isDiscovering = false ∧
    ∃ k, k ≤ networkOptions.length ∧
      (discoverBulbsOver (scripted [.ok [deviceX]]) networkOptions WizBulbController.new
          []).world = [] ++ (networkOptions.take k).map attempt ∧
      (∀ i c, networkOptions[i]? = some c →
        found ((scripted [.ok [deviceX]]).discover (([] : World).length + i) c) = true →
        k ≤ i + 1) ∧
      (networkOptions ≠ [] → 0 < k) ∧
      (k < networkOptions.length → ∃ c, networkOptions[k - 1]? = some c ∧
        found ((scripted [.ok [deviceX]]).discover (([] : World).length + (k - 1)) c)
          = true) ∧
      (∀ c, networkOptions[0]? = some c →
        found ((scripted [.ok [deviceX]]).discover ([] : World).length c) = true → k = 1) :=
  ⟨rfl, discoverBulbs_tries_candidates_in_order (scripted [.ok [deviceX]]) networkOptions
    WizBulbController.new [] rfl⟩

/-- C2: when some candidate answers a non-empty list, the list kept in `this.bulbs` is
exactly the list answered by the first such candidate (so it holds no device of any other
candidate), `currentBulb` is its first element, a `count` in the result is its length,
and unless the dump of the bulbs throws the result is the success result over it. -/
theorem discoverBulbs_keeps_first_successful_answer (env : Env)
    (cands : List NetworkOptions) (this : WizBulbController) (w : World)
    (h : this.isDiscovering = false)
    (hsome : ∃ i c, cands[i]? = some c ∧ found (env.discover (w.length + i) c) = true) :
    ∃ i c kept, cands[i]? = some c ∧ env.discover (w.length + i) c = .ok kept ∧
      kept ≠ [] ∧
      (∀ j d, j < i → cands[j]? = some d → found (env.discover (w.length + j) d) = false) ∧
      (discoverBulbsOver env cands this w).this.bulbs = kept ∧
      (discoverBulbsOver env cands this w).this.currentBulb = kept.head? ∧
      (∀ count bulbs, (discoverBulbsOver env cands this w).result = .discovered count bulbs →
        count = kept.length) ∧
      (env.internalError kept = none →
        (discoverBulbsOver env cands this w).result =
          .discovered kept.length (kept.map bulbInfo)) := by
  obtain ⟨i, c, hc, hd, hne, hbefore⟩ := firstFound_spec env cands w.length hsome
  refine ⟨i, c, firstFound env w.length cands, hc, hd, hne, hbefore, ?_, ?_, ?_, ?_⟩
  · rw [discoverBulbsOver_eq env cands this w h]
  · rw [discoverBulbsOver_eq env cands this w h]
    cases hL : firstFound env w.length cands with
    | nil => exact absurd hL hne
    | cons b bs => rfl
  · intro count bulbs hres
    rw [discoverBulbsOver_eq env cands this w h] at hres
    cases hL : firstFound env w.length cands with
    | nil => exact absurd hL hne
    | cons b bs =>
      simp only [hL, resultFor] at hres
      cases hI : env.internalError (b :: bs) with
      | none =>
        simp only [hI, Result.discovered.injEq] at hres
        exact hres.1.symm
      | some m => simp [hI] at hres
  · intro hI
    rw [discoverBulbsOver_eq env cands this w h]
    cases hL : firstFound env w.length cands with
    | nil => exact absurd hL hne
    | cons b bs =>
      rw [hL] at hI
      simp [resultFor, hI]

/-- C2, witness: the second candidate answers `deviceX`, and the third, which would answer
`deviceY`, is never merged in. -/
theorem discoverBulbs_keeps_first_successful_answer_witness :
    WizBulbController.new.isDiscovering = false ∧
    (∃ i c, networkOptions[i]? = some c ∧
      found (envSecondThenThird.discover (([] : World).length + i) c) = true) ∧
    ∃ i c kept, networkOptions[i]? = some c ∧
      envSecondThenThird.discover (([] : World).length + i) c = .ok kept ∧
      kept ≠ [] ∧
      (∀ j d, j < i → networkOptions[j]? = some d →
        found (envSecondThenThird.discover (([] : World).length + j) d) = false) ∧
      (discoverBulbsOver envSecondThenThird networkOptions WizBulbController.new
        []).this.bulbs = kept ∧
      (discoverBulbsOver envSecondThenThird networkOptions WizBulbController.new
        []).this.currentBulb = kept.head? ∧
      (∀ count bulbs,
        (discoverBulbsOver envSecondThenThird networkOptions WizBulbController.new
          []).result = .discovered count bulbs → count = kept.length) ∧
      (envSecondThenThird.internalError kept = none →
        (discoverBulbsOver envSecondThenThird networkOptions WizBulbController.new
          []).result = .discovered kept.length (kept.map bulbInfo)) :=
  ⟨rfl, ⟨1, ⟨"192.168.1.255", 5000⟩, rfl, rfl⟩,
    discoverBulbs_keeps_first_successful_answer envSecondThenThird networkOptions
      WizBulbController.new [] rfl ⟨1, ⟨"192.168.1.255", 5000⟩, rfl, rfl⟩⟩

theorem firstFound_absorbErrors (env : Env) (replace : Nat → Bool) :
    ∀ (cands : List NetworkOptions) (n : Nat),
      firstFound (absorbErrors env replace) n cands = firstFound env n cands ∧
      attempts (absorbErrors env replace) n cands = attempts env n cands := by
  intro cands
  induction cands with
  | nil => intro n; simp [firstFound, attempts]
  | cons c cs ih =>
    intro n
    cases hd : env.discover n c with
    | error msg =>
      cases hr : replace n <;>
        simp [firstFound, attempts, absorbErrors, hd, hr, found] <;>
        exact ih (n + 1)
    | ok l =>
      cases l with
      | nil =>
        simp [firstFound, attempts, absorbErrors, hd, found]
        exact ih (n + 1)
      | cons b bs => simp [firstFound, attempts, absorbErrors, hd, found]

/-- C3: replacing any errored answers of `discover` by the empty list changes neither the
calls made nor the returned result nor the controller; after an errored call the next
candidate, when there is one, is attempted; and the answers empty, error, `[deviceX]`
give three attempts and the success result holding exactly `deviceX`. -/
theorem discoverBulbs_error_is_treated_as_empty (env : Env) (replace : Nat → Bool)
    (cands : List NetworkOptions) (this : WizBulbController) (w : World) :
    discoverBulbsOver (absorbErrors env replace) cands this w =
      discoverBulbsOver env cands this w ∧
    (∀ i c d message, this.isDiscovering = false →
      cands[i]? = some c → cands[i + 1]? = some d →
      (discoverBulbsOver env cands this w).world[w.length + i]? = some (attempt c) →
      env.discover (w.length + i) c = .error message →
      (discoverBulbsOver env cands this w).world[w.length + (i + 1)]? = some (attempt d)) ∧
    discoverBulbs envEmptyErrorFound WizBulbController.new [] =
      ⟨.discovered 1 [⟨"192.168.0.7", "a8bb50aabbcc", 38899⟩],
        ⟨[deviceX], some deviceX, false⟩,
        networkOptions.map attempt⟩ := by
  refine ⟨?_, ?_, by decide⟩
  · cases h : this.isDiscovering with
    | true => simp [discoverBulbsOver, h]
    | false =>
      rw [discoverBulbsOver_eq _ cands this w h, discoverBulbsOver_eq _ cands this w h,
        (firstFound_absorbErrors env replace cands w.length).1,
        (firstFound_absorbErrors env replace cands w.length).2]
      rfl
  · intro i c d message h hc hd hcall herr
    rw [discoverBulbsOver_eq env cands this w h] at hcall ⊢
    simp only [List.getElem?_append_right (Nat.le_add_right _ _), Nat.add_sub_cancel_left,
      List.getElem?_map, List.getElem?_take] at hcall ⊢
    have hik : i < attempts env w.length cands := by
      by_contra hcon
      simp [hcon] at hcall
    have hlen : i + 1 < cands.length := by
      by_contra hcon
      have := List.getElem?_eq_none (Nat.le_of_not_lt hcon)
      rw [this] at hd
      exact absurd hd (by simp)
    have hk : i + 1 < attempts env w.length cands := by
      by_contra hcon
      have hlt : attempts env w.length cands < cands.length := by omega
      obtain ⟨e, he, hf⟩ := found_of_attempts_lt env cands w.length hlt
      have hidx : attempts env w.length cands - 1 = i := by omega
      rw [hidx] at he hf
      rw [hc] at he
      cases he
      rw [herr] at hf
      exact absurd hf (by simp [found])
    simp [hk, hd]

/-- C3, witness: in the scenario the second call fails and the third candidate is still
attempted. -/
theorem discoverBulbs_error_is_treated_as_empty_witness :
    (discoverBulbsOver envEmptyErrorFound networkOptions WizBulbController.new
      []).world[([] : World).length + (1 + 1)]? = some (attempt ⟨"255.255.255.255", 5000⟩) :=
  (discoverBulbs_error_is_treated_as_empty envEmptyErrorFound (fun _ => true)
    networkOptions WizBulbController.new []).2.1 1 ⟨"192.168.1.255", 5000⟩
    ⟨"255.255.255.255", 5000⟩ "EACCES" rfl rfl rfl (by decide) rfl

/-- C4, counterexample: with every candidate answering no bulb or failing, the returned
result is the failure object with the message `No bulbs found`; its `success` is false
and it is not a success result with count 0 and no bulbs. -/
theorem discoverBulbs_exhaustion_is_not_a_success :
    (∀ i c, networkOptions[i]? = some c →
      found (envFruitless.discover (([] : World).length + i) c) = false) ∧
    (discoverBulbs envFruitless WizBulbController.new []).result
      = .failure "No bulbs found" ∧
    (discoverBulbs envFruitless WizBulbController.new []).result.success = false ∧
    (discoverBulbs envFruitless WizBulbController.new []).result ≠ .discovered 0 [] := by
  refine ⟨?_, by decide, by decide, by decide⟩
  intro i c hc
  match i, hc with
  | 0, hc => cases hc; rfl
  | 1, hc => cases hc; rfl
  | 2, hc => cases hc; rfl
  | n + 3, hc => simp [networkOptions] at hc

/-- C4, amended: when every candidate answers zero devices or fails, `discoverBulbs`
returns (it does not throw) the failure result with `success = false` and the message
`No bulbs found`, after attempting every candidate, and leaves `this.bulbs` empty. -/
theorem discoverBulbs_exhaustion_returns_no_bulbs_found (env : Env)
    (cands : List NetworkOptions) (this : WizBulbController) (w : World)
    (h : this.isDiscovering = false)
    (hnone : ∀ i c, cands[i]? = some c → found (env.discover (w.length + i) c) = false) :
    (discoverBulbsOver env cands this w).result = .failure "No bulbs found" ∧
    (discoverBulbsOver env cands this w).result.success = false ∧
    (discoverBulbsOver env cands this w).this.bulbs = [] ∧
    (discoverBulbsOver env cands this w).world = w ++ cands.map attempt := by
  obtain ⟨hk, hL⟩ := attempts_eq_length_of_fruitless env cands w.length hnone
  rw [discoverBulbsOver_eq env cands this w h, hk, hL]
  simp [resultFor, Result.success]

/-- C4, witness of the amended statement. -/
theorem discoverBulbs_exhaustion_returns_no_bulbs_found_witness :
    WizBulbController.new.isDiscovering = false ∧
    (discoverBulbsOver envFruitless networkOptions WizBulbController.new []).result
      = .failure "No bulbs found" ∧
    (discoverBulbsOver envFruitless networkOptions WizBulbController.new
      []).result.success = false ∧
    (discoverBulbsOver envFruitless networkOptions WizBulbController.new
      []).this.bulbs = [] ∧
    (discoverBulbsOver envFruitless networkOptions WizBulbController.new []).world
      = [] ++ networkOptions.map attempt :=
  ⟨rfl, discoverBulbs_exhaustion_returns_no_bulbs_found envFruitless networkOptions
    WizBulbController.new [] rfl (fun i c hc =>
      match i, hc with
      | 0, hc => by cases hc; rfl
      | 1, hc => by cases hc; rfl
      | 2, hc => by cases hc; rfl
      | n + 3, hc => by simp [networkOptions] at hc)⟩

/-- C5: invoked while `isDiscovering` is true, `discoverBulbs` returns the failure result
with the already-in-progress message, adds no call to the trace and leaves the controller
(`bulbs`, `currentBulb`, `isDiscovering`) as it was. -/
theorem discoverBulbs_rejected_while_in_progress (env : Env) (cands : List NetworkOptions)
    (this : WizBulbController) (w : World) (h : this.isDiscovering = true) :
    discoverBulbsOver env cands this w =
      ⟨.failure "Discovery already in progress", this, w⟩ ∧
    (discoverBulbsOver env cands this w).result.success = false ∧
    (discoverBulbsOver env cands this w).this.isDiscovering = true := by
  simp [discoverBulbsOver, h, Result.success]

/-- C5, witness: a second invocation on a busy controller, whose first candidate would
answer a bulb. -/
theorem discoverBulbs_rejected_while_in_progress_witness :
    busyController.isDiscovering = true ∧
    discoverBulbsOver (scripted [.ok [deviceX]]) networkOptions busyController
        [attempt ⟨"192.168.0.255", 8000⟩] =
      ⟨.failure "Discovery already in progress", busyController,
        [attempt ⟨"192.168.0.255", 8000⟩]⟩ ∧
    (discoverBulbsOver (scripted [.ok [deviceX]]) networkOptions busyController
      [attempt ⟨"192.168.0.255", 8000⟩]).result.success = false ∧
    (discoverBulbsOver (scripted [.ok [deviceX]]) networkOptions busyController
      [attempt ⟨"192.168.0.255", 8000⟩]).this.isDiscovering = true :=
  ⟨rfl, discoverBulbs_rejected_while_in_progress (scripted [.ok [deviceX]]) networkOptions
    busyController [attempt ⟨"192.168.0.255", 8000⟩] rfl⟩

/-- C6: a `discoverBulbs` invocation that starts with the flag clear issues every one of
its `discover` calls with the flag set, and ends with `isDiscovering = false` whatever the
candidates answer and whether or not the dump of the bulbs throws; a subsequent invocation
is then not rejected: it attempts the first candidate. -/
theorem discoverBulbs_clears_flag_on_every_exit (env : Env) (cands : List NetworkOptions)
    (this : WizBulbController) (w : World) (h : this.isDiscovering = false) :
    (discoverBulbsOver env cands this w).this.isDiscovering = false ∧
    (∀ e ∈ (discoverBulbsOver env cands this w).world.drop w.length,
      e.inProgress = true) ∧
    (∀ c, cands[0]? = some c →
      (discoverBulbsOver env cands (discoverBulbsOver env cands this w).this
        (discoverBulbsOver env cands this w).world).world[
          (discoverBulbsOver env cands this w).world.length]? = some (attempt c)) := by
  have hflag : (discoverBulbsOver env cands this w).this.isDiscovering = false := by
    rw [discoverBulbsOver_eq env cands this w h]
  refine ⟨hflag, ?_, ?_⟩
  · rw [discoverBulbsOver_eq env cands this w h]
    intro e he
    simp only [List.drop_left] at he
    obtain ⟨c, _, rfl⟩ := List.mem_map.mp he
    rfl
  · intro c hc
    rw [discoverBulbsOver_eq env cands _ _ hflag]
    cases cands with
    | nil => simp at hc
    | cons d ds =>
      simp at hc
      subst hc
      have hpos := attempts_pos env d ds (discoverBulbsOver env (d :: ds) this w).world.length
      obtain ⟨m, hm⟩ := Nat.exists_eq_succ_of_ne_zero (Nat.pos_iff_ne_zero.mp hpos)
      rw [hm, List.getElem?_append_right (Nat.le_refl _)]
      simp

/-- C6, witness: the run finds a bulb and fails while dumping it (the internal error
path); the flag is clear afterwards. -/
theorem discoverBulbs_clears_flag_on_every_exit_witness :
    WizBulbController.new.isDiscovering = false ∧
    (discoverBulbs envInternalError WizBulbController.new []).result
      = .failure "Converting circular structure to JSON" ∧
    (discoverBulbsOver envInternalError networkOptions WizBulbController.new
      []).this.isDiscovering = false :=
  ⟨rfl, by decide,
    (discoverBulbs_clears_flag_on_every_exit envInternalError networkOptions
      WizBulbController.new [] rfl).1⟩

theorem bulbInfo_fields (handle : Handle) :
    (∀ a, handle.address = some a → a ≠ "" → (bulbInfo handle).ip = a) ∧
    (lacks handle.address = true → ∀ a, handle.ip = some a → a ≠ "" →
      (bulbInfo handle).ip = a) ∧
    (lacks handle.address = true → lacks handle.ip = true →
      (bulbInfo handle).ip = "unknown") ∧
    (∀ m, handle.macIdentifier = some m → m ≠ "" → (bulbInfo handle).mac = m) ∧
    (lacks handle.macIdentifier = true → ∀ m, handle.mac = some m → m ≠ "" →
      (bulbInfo handle).mac = m) ∧
    (lacks handle.macIdentifier = true → lacks handle.mac = true →
      (bulbInfo handle).mac = "unknown") ∧
    (∀ p, handle.bulbPort = some p → p ≠ 0 → (bulbInfo handle).port = p) ∧
    (handle.bulbPort = none ∨ handle.bulbPort = some 0 →
      (bulbInfo handle).port = 38899) := by
  obtain ⟨address, ip, macIdentifier, mac, bulbPort⟩ := handle
  refine ⟨?_, ?_, ?_, ?_, ?_, ?_, ?_, ?_⟩
  · intro a ha hne
    simp only at ha
    subst ha
    simp [bulbInfo, orStr, hne]
  · intro hl a ha hne
    simp only at ha hl
    subst ha
    cases address with
    | none => simp [bulbInfo, orStr, hne]
    | some x =>
      have : x = "" := by simpa [lacks] using hl
      simp [bulbInfo, orStr, hne, this]
  · intro hl hl2
    simp only at hl hl2
    cases address with
    | none =>
      cases ip with
      | none => simp [bulbInfo, orStr]
      | some y =>
        have hy : y = "" := by simpa [lacks] using hl2
        simp [bulbInfo, orStr, hy]
    | some x =>
      have hx : x = "" := by simpa [lacks] using hl
      cases ip with
      | none => simp [bulbInfo, orStr, hx]
      | some y =>
        have hy : y = "" := by simpa [lacks] using hl2
        simp [bulbInfo, orStr, hx, hy]
  · intro a ha hne
    simp only at ha
    subst ha
    simp [bulbInfo, orStr, hne]
  · intro hl a ha hne
    simp only at ha hl
    subst ha
    cases macIdentifier with
    | none => simp [bulbInfo, orStr, hne]
    | some x =>
      have : x = "" := by simpa [lacks] using hl
      simp [bulbInfo, orStr, hne, this]
  · intro hl hl2
    simp only at hl hl2
    cases macIdentifier with
    | none =>
      cases mac with
      | none => simp [bulbInfo, orStr]
      | some y =>
        have hy : y = "" := by simpa [lacks] using hl2
        simp [bulbInfo, orStr, hy]
    | some x =>
      have hx : x = "" := by simpa [lacks] using hl
      cases mac with
      | none => simp [bulbInfo, orStr, hx]
      | some y =>
        have hy : y = "" := by simpa [lacks] using hl2
        simp [bulbInfo, orStr, hx, hy]
  · intro q hq hne
    simp only at hq
    subst hq
    simp [bulbInfo, hne]
  · intro hq
    simp only at hq
    rcases hq with hq | hq <;> subst hq <;> simp [bulbInfo]

/-- C7: a success result of `discoverBulbs` has `success = true`, `count` equal to the
number of discovered handles (`this.bulbs`), and `bulbs` of the same length and order,
where entry `i` has `ip` = the address of handle `i` (else its `ip`, else `unknown`),
`mac` = its `macIdentifier` (else its `mac`, else `unknown`) and `port` = its `bulbPort`,
or 38899 when it has none.  A property counts as missing when it is absent or falsy (the
empty string, the port 0). -/
theorem discoverBulbs_success_result_shape (env : Env) (cands : List NetworkOptions)
    (this : WizBulbController) (w : World) (count : Nat) (bulbs : List BulbInfo)
    (hres : (discoverBulbsOver env cands this w).result = .discovered count bulbs) :
    (discoverBulbsOver env cands this w).result.success = true ∧
    count = (discoverBulbsOver env cands this w).this.bulbs.length ∧
    bulbs.length = (discoverBulbsOver env cands this w).this.bulbs.length ∧
    ∀ (i : Nat) (handle : Handle),
      (discoverBulbsOver env cands this w).this.bulbs[i]? = some handle →
      ∃ info : BulbInfo, bulbs[i]? = some info ∧
        (∀ a, handle.address = some a → a ≠ "" → info.ip = a) ∧
        (lacks handle.address = true → ∀ a, handle.ip = some a → a ≠ "" → info.ip = a) ∧
        (lacks handle.address = true → lacks handle.ip = true → info.ip = "unknown") ∧
        (∀ m, handle.macIdentifier = some m → m ≠ "" → info.mac = m) ∧
        (lacks handle.macIdentifier = true → ∀ m, handle.mac = some m → m ≠ "" →
          info.mac = m) ∧
        (lacks handle.macIdentifier = true → lacks handle.mac = true →
          info.mac = "unknown") ∧
        (∀ p, handle.bulbPort = some p → p ≠ 0 → info.port = p) ∧
        (handle.bulbPort = none ∨ handle.bulbPort = some 0 → info.port = 38899) := by
  cases h : this.isDiscovering with
  | true => simp [discoverBulbsOver, h] at hres
  | false =>
    rw [discoverBulbsOver_eq env cands this w h] at hres ⊢
    simp only at hres ⊢
    cases hL : firstFound env w.length cands with
    | nil => simp [hL, resultFor] at hres
    | cons b bs =>
      rw [hL] at hres
      simp only [resultFor] at hres
      cases hI : env.internalError (b :: bs) with
      | some m => simp [hI] at hres
      | none =>
        simp only [hI, Result.discovered.injEq] at hres
        obtain ⟨hcount, hbulbs⟩ := hres
        refine ⟨?_, hcount.symm, ?_, ?_⟩
        · simp [resultFor, hI, Result.success]
        · rw [← hbulbs]; simp
        · intro i handle hi
          refine ⟨bulbInfo handle, ?_, bulbInfo_fields handle⟩
          rw [← hbulbs, List.getElem?_map, hi]
          rfl

/-- C7, witness: two bulbs found, the first with its properties, the second with none. -/
theorem discoverBulbs_success_result_shape_witness :
    (discoverBulbsOver (scripted [.ok [deviceX, deviceY]]) networkOptions
      WizBulbController.new []).result
      = .discovered 2 [⟨"192.168.0.7", "a8bb50aabbcc", 38899⟩, ⟨"unknown", "unknown", 38899⟩] ∧
    (2 : Nat) = (discoverBulbsOver (scripted [.ok [deviceX, deviceY]]) networkOptions
      WizBulbController.new []).this.bulbs.length :=
  ⟨by decide,
    (discoverBulbs_success_result_shape (scripted [.ok [deviceX, deviceY]]) networkOptions
      WizBulbController.new [] 2
      [⟨"192.168.0.7", "a8bb50aabbcc", 38899⟩, ⟨"unknown", "unknown", 38899⟩]
      (by decide)).2.1⟩

/-! ## Claims about the bulb commands and main -/

set_option maxRecDepth 100000 in
theorem hexPair_byte : ∀ n : Fin 256,
    padStart (hexDigits n.val) 2 '0'
      = String.mk [Nat.digitChar (n.val / 16), Nat.digitChar (n.val % 16)] ∧
    parseHexPair (Nat.digitChar (n.val / 16)) (Nat.digitChar (n.val % 16)) = some n.val := by
  decide

theorem hexValue_range (c : Char) (v : Nat) (h : hexValue c = some v) :
    ('0' ≤ c ∧ c ≤ '9') ∨ ('a' ≤ c ∧ c ≤ 'f') := by
  unfold hexValue at h
  split at h
  · left; assumption
  · split at h
    · right; assumption
    · exact absurd h (by simp)

theorem parseHexPair_digits (hi lo : Char) (n : Nat) (h : parseHexPair hi lo = some n) :
    ∀ c ∈ [hi, lo], ('0' ≤ c ∧ c ≤ '9') ∨ ('a' ≤ c ∧ c ≤ 'f') := by
  unfold parseHexPair at h
  cases h1 : hexValue hi with
  | none => simp [h1] at h
  | some a =>
    cases h2 : hexValue lo with
    | none => simp [h1, h2] at h
    | some b =>
      intro c hc
      simp only [List.mem_cons, List.mem_singleton, List.not_mem_nil, or_false] at hc
      rcases hc with rfl | rfl
      · exact hexValue_range _ a h1
      · exact hexValue_range _ b h2

theorem component_hex (x : Int) (h0 : 0 ≤ x) (h1 : x ≤ 255) :
    padStart (toString16 (.int x)) 2 '0'
      = String.mk [Nat.digitChar (x.toNat / 16), Nat.digitChar (x.toNat % 16)] ∧
    parseHexPair (Nat.digitChar (x.toNat / 16)) (Nat.digitChar (x.toNat % 16))
      = some x.toNat := by
  have hlt : x.toNat < 256 := by omega
  have hneg : ¬ x < 0 := by omega
  have := hexPair_byte ⟨x.toNat, hlt⟩
  simpa [toString16, hneg] using this

theorem rgbHex_chars (red green blue : Int) (hr0 : 0 ≤ red) (hr : red ≤ 255)
    (hg0 : 0 ≤ green) (hg : green ≤ 255) (hb0 : 0 ≤ blue) (hb : blue ≤ 255) :
    rgbHex (.int red) (.int green) (.int blue) =
      String.mk ['#', Nat.digitChar (red.toNat / 16), Nat.digitChar (red.toNat % 16),
        Nat.digitChar (green.toNat / 16), Nat.digitChar (green.toNat % 16),
        Nat.digitChar (blue.toNat / 16), Nat.digitChar (blue.toNat % 16)] := by
  unfold rgbHex
  rw [(component_hex red hr0 hr).1, (component_hex green hg0 hg).1,
    (component_hex blue hb0 hb).1]
  apply String.ext
  simp

/-- C8: for integers `red`, `green`, `blue` in 0..255, with a bulb connected and the
library `color` call succeeding, the string passed to the bulb and returned as
`color.hex` is `#` followed by exactly six characters, each pair being two lowercase
hexadecimal digits that parse in base 16 to `red`, `green` and `blue` in this order;
so two triples in range with the same string are equal. -/
theorem setRGBColor_hex_encoding (env : Env) (this : WizBulbController) (w : World)
    (bulb : Handle) (red green blue : Int)
    (hr0 : 0 ≤ red) (hr : red ≤ 255) (hg0 : 0 ≤ green) (hg : green ≤ 255)
    (hb0 : 0 ≤ blue) (hb : blue ≤ 255)
    (hbulb : this.currentBulb = some bulb)
    (hok : env.command w.length
      (.color bulb (rgbHex (.int red) (.int green) (.int blue))) = none) :
    ∃ r1 r0 g1 g0 b1 b0 : Char,
      rgbHex (.int red) (.int green) (.int blue)
        = String.mk ['#', r1, r0, g1, g0, b1, b0] ∧
      setRGBColor env (.int red) (.int green) (.int blue) this w =
        ⟨.color (.int red) (.int green) (.int blue)
            (String.mk ['#', r1, r0, g1, g0, b1, b0]),
          this,
          w ++ [⟨.color bulb (String.mk ['#', r1, r0, g1, g0, b1, b0]),
            this.isDiscovering⟩]⟩ ∧
      (∀ c ∈ [r1, r0, g1, g0, b1, b0], ('0' ≤ c ∧ c ≤ '9') ∨ ('a' ≤ c ∧ c ≤ 'f')) ∧
      parseHexPair r1 r0 = some red.toNat ∧
      parseHexPair g1 g0 = some green.toNat ∧
      parseHexPair b1 b0 = some blue.toNat ∧
      ∀ red2 green2 blue2 : Int, 0 ≤ red2 → red2 ≤ 255 → 0 ≤ green2 → green2 ≤ 255 →
        0 ≤ blue2 → blue2 ≤ 255 →
        rgbHex (.int red2) (.int green2) (.int blue2)
          = rgbHex (.int red) (.int green) (.int blue) →
        red2 = red ∧ green2 = green ∧ blue2 = blue := by
  have hhex := rgbHex_chars red green blue hr0 hr hg0 hg hb0 hb
  refine ⟨_, _, _, _, _, _, hhex, ?_, ?_, (component_hex red hr0 hr).2,
    (component_hex green hg0 hg).2, (component_hex blue hb0 hb).2, ?_⟩
  · rw [hhex] at hok
    simp [setRGBColor, hbulb, callCommand, hhex, hok]
  · intro c hc
    have dr := parseHexPair_digits _ _ _ (component_hex red hr0 hr).2
    have dg := parseHexPair_digits _ _ _ (component_hex green hg0 hg).2
    have db := parseHexPair_digits _ _ _ (component_hex blue hb0 hb).2
    simp only [List.mem_cons, List.mem_singleton, List.not_mem_nil, or_false] at hc
    rcases hc with rfl | rfl | rfl | rfl | rfl | rfl
    · exact dr _ (by simp)
    · exact dr _ (by simp)
    · exact dg _ (by simp)
    · exact dg _ (by simp)
    · exact db _ (by simp)
    · exact db _ (by simp)
  · intro red2 green2 blue2 h1 h2 h3 h4 h5 h6 heq
    rw [hhex, rgbHex_chars red2 green2 blue2 h1 h2 h3 h4 h5 h6] at heq
    have hdata := congrArg String.data heq
    simp only [List.cons.injEq, true_and, and_true] at hdata
    obtain ⟨e1, e2, e3, e4, e5, e6⟩ := hdata
    have pr := (component_hex red2 h1 h2).2
    have pg := (component_hex green2 h3 h4).2
    have pb := (component_hex blue2 h5 h6).2
    rw [e1, e2, (component_hex red hr0 hr).2] at pr
    rw [e3, e4, (component_hex green hg0 hg).2] at pg
    rw [e5, e6, (component_hex blue hb0 hb).2] at pb
    simp only [Option.some.injEq] at pr pg pb
    omega

/-- C8, witness: the colour 255, 0, 10 on a connected bulb is sent as `#ff000a`. -/
theorem setRGBColor_hex_encoding_witness :
    setRGBColor (scripted []) (.int 255) (.int 0) (.int 10) connectedController [] =
      ⟨.color (.int 255) (.int 0) (.int 10) "#ff000a", connectedController,
        [⟨.color deviceX "#ff000a", false⟩]⟩ ∧
    ∃ r1 r0 g1 g0 b1 b0 : Char,
      rgbHex (.int 255) (.int 0) (.int 10) = String.mk ['#', r1, r0, g1, g0, b1, b0] ∧
      parseHexPair r1 r0 = some 255 ∧ parseHexPair g1 g0 = some 0 ∧
      parseHexPair b1 b0 = some 10 := by
  refine ⟨by decide, ?_⟩
  obtain ⟨r1, r0, g1, g0, b1, b0, hhex, _, _, pr, pg, pb, _⟩ :=
    setRGBColor_hex_encoding (scripted []) connectedController [] deviceX 255 0 10
      (by decide) (by decide) (by decide) (by decide) (by decide) (by decide) rfl rfl
  exact ⟨r1, r0, g1, g0, b1, b0, hhex, pr, pg, pb⟩

/-- C9: `main` builds a fresh controller and dispatches one command.  For the commands
`getState`, `setBrightness`, `setRGB`, `setPower` and `setScene`, whatever the remaining
arguments, it prints the failure result `No bulb connected`; and for every command other
than `discover` and `discoverAndGetState` the trace stays empty: no library operation is
invoked. -/
theorem main_without_discovery_reaches_no_bulb (env : Env) (command : String)
    (rest : List String) :
    (command ∈ ["getState", "setBrightness", "setRGB", "setPower", "setScene"] →
      main env (command :: rest) =
        .printed (.failure "No bulb connected") WizBulbController.new []) ∧
    (command ≠ "discover" → command ≠ "discoverAndGetState" →
      ∃ result, main env (command :: rest) = .printed result WizBulbController.new []) := by
  constructor
  · intro hmem
    simp only [List.mem_cons, List.mem_singleton, List.not_mem_nil, or_false] at hmem
    rcases hmem with h | h | h | h | h <;> subst h <;>
      simp [main, dispatch, getBulbState, setBrightness, setRGBColor, setBulbPower,
        setScene, closeBulbConnection, WizBulbController.new]
  · intro h1 h2
    simp only [main, dispatch, h1, h2, ↓reduceIte]
    repeat' split
    all_goals
      simp [getBulbState, setBrightness, setRGBColor, setBulbPower, setScene,
        closeBulbConnection, getAvailableScenes, WizBulbController.new]

/-- C9, witness: `setRGB` with a non-numeric and two missing arguments. -/
theorem main_without_discovery_reaches_no_bulb_witness :
    main envEmptyErrorFound ["setRGB", "red"] =
      .printed (.failure "No bulb connected") WizBulbController.new [] :=
  (main_without_discovery_reaches_no_bulb envEmptyErrorFound "setRGB" ["red"]).1
    (by decide)

/-- C10: in a `discoverBulbs` run that passes the guard and in which every candidate
answers the empty list or fails, `this.bulbs` becomes the empty list while
`this.currentBulb` keeps the value it had before the run; hence when the controller comes
out of a run that found bulbs, `currentBulb` is afterwards a handle that is not an element
of `bulbs`. -/
theorem discoverBulbs_fruitless_keeps_currentBulb (env : Env)
    (cands : List NetworkOptions) (this : WizBulbController) (w : World)
    (h : this.isDiscovering = false)
    (hnone : ∀ i c, cands[i]? = some c → found (env.discover (w.length + i) c) = false) :
    (discoverBulbsOver env cands this w).this.bulbs = [] ∧
    (discoverBulbsOver env cands this w).this.currentBulb = this.currentBulb ∧
    ∀ (env0 : Env) (cands0 : List NetworkOptions) (this0 : WizBulbController) (w0 : World),
      this0.isDiscovering = false →
      (∃ i c, cands0[i]? = some c ∧ found (env0.discover (w0.length + i) c) = true) →
      this = (discoverBulbsOver env0 cands0 this0 w0).this →
      ∃ bulb, (discoverBulbsOver env cands this w).this.currentBulb = some bulb ∧
        bulb ∉ (discoverBulbsOver env cands this w).this.bulbs := by
  obtain ⟨_, hL⟩ := attempts_eq_length_of_fruitless env cands w.length hnone
  have hbulbs : (discoverBulbsOver env cands this w).this.bulbs = [] := by
    rw [discoverBulbsOver_eq env cands this w h, hL]
  have hcur : (discoverBulbsOver env cands this w).this.currentBulb = this.currentBulb := by
    rw [discoverBulbsOver_eq env cands this w h, hL]
  refine ⟨hbulbs, hcur, ?_⟩
  intro env0 cands0 this0 w0 h0 hsome hthis
  obtain ⟨i, c, _, _, hne, _⟩ := firstFound_spec env0 cands0 w0.length hsome
  rw [hcur, hbulbs, hthis, discoverBulbsOver_eq env0 cands0 this0 w0 h0]
  cases hF : firstFound env0 w0.length cands0 with
  | nil => exact absurd hF hne
  | cons b bs => exact ⟨b, rfl, by simp⟩

/-- C10, witness: a discovery that finds `deviceX`, then a fruitless one on the same
controller: `bulbs` is empty and `currentBulb` is still `deviceX`. -/
theorem discoverBulbs_fruitless_keeps_currentBulb_witness :
    (discoverBulbsOver envFruitless networkOptions connectedController []).this.bulbs
      = [] ∧
    (discoverBulbsOver envFruitless networkOptions connectedController
      []).this.currentBulb = some deviceX ∧
    connectedController = (discoverBulbs (scripted [.ok [deviceX]])
      WizBulbController.new []).this :=
  ⟨(discoverBulbs_fruitless_keeps_currentBulb envFruitless networkOptions
      connectedController [] rfl (fun i c hc =>
        match i, hc with
        | 0, hc => by cases hc; rfl
        | 1, hc => by cases hc; rfl
        | 2, hc => by cases hc; rfl
        | n + 3, hc => by simp [networkOptions] at hc)).1,
    (discoverBulbs_fruitless_keeps_currentBulb envFruitless networkOptions
      connectedController [] rfl (fun i c hc =>
        match i, hc with
        | 0, hc => by cases hc; rfl
        | 1, hc => by cases hc; rfl
        | 2, hc => by cases hc; rfl
        | n + 3, hc => by simp [networkOptions] at hc)).2.1,
    by decide⟩

end WizBulb
